import Mathlib

/-!
# Verification of the Konflikt core against its specification

This development gives a shallow embedding, in Lean 4, of the parts of the
Konflikt software-KVM that the specification's checkable claims are about:

* the layout manager (`src/libkonflikt/src/LayoutManager.cpp`): screen
  registration, re-arrangement, adjacency and edge-transition targets;
* the edge/cursor engine, session handling, clipboard replication and the
  client reconnection policy (`src/libkonflikt/src/Konflikt.cpp`).

Machine integers (`int32_t`) are modelled as `Int`; unsigned 64-bit
timestamps as `Nat` (the theorems that involve elapsed-time subtraction
carry an explicit clock-monotonicity hypothesis `earlier ≤ now`, on which
domain `Nat` subtraction agrees with the C++ `uint64_t` subtraction).
`std::unordered_map` is modelled as an association list with insert-replace
semantics; the C++ iteration order is unspecified, so every statement that
depends on iteration order is either order-independent or made over the
list model explicitly.  `std::optional` becomes `Option`, and handlers
return the new state together with the list of externally visible actions
(messages sent, cursor shown/hidden, clipboard written) they perform.
-/

namespace Konflikt

/-- `std::clamp(v, lo, hi)` as defined by the C++ standard library:
`v < lo ? lo : (hi < v ? hi : v)`. -/
def cppClamp (v lo hi : Int) : Int :=
  if v < lo then lo else if hi < v then hi else v

/-! ## Layout manager data model (LayoutManager.h) -/

/-- `ScreenEntry` from LayoutManager.h: one screen in the shared plane. -/
structure ScreenEntry where
  instanceId : String
  displayName : String
  machineId : String
  x : Int
  y : Int
  width : Int
  height : Int
  isServer : Bool
  online : Bool
deriving Repr, DecidableEq

/-- `Adjacency` from Protocol.h: the four optional neighbour slots. -/
structure Adjacency where
  left : Option String := none
  right : Option String := none
  top : Option String := none
  bottom : Option String := none
deriving Repr, DecidableEq

/-- `Side` from LayoutManager.h. -/
inductive Side where
  | left
  | right
  | top
  | bottom
deriving Repr, DecidableEq

/-- `TransitionTarget` from LayoutManager.h. -/
structure TransitionTarget where
  targetScreen : ScreenEntry
  newX : Int
  newY : Int
deriving Repr, DecidableEq

/-- The `m_screens` map of `LayoutManager`, modelled as an association list
keyed by `instanceId` (each entry stores its own key). -/
abbrev Layout := List ScreenEntry

/-- `m_screens.find(instanceId)` — key lookup. -/
def findScreen (l : Layout) (id : String) : Option ScreenEntry :=
  l.find? (fun s => s.instanceId = id)

/-- `m_screens[id] = entry`: replace the entry with this key if present,
otherwise insert a fresh one. -/
def screensInsert (l : Layout) (e : ScreenEntry) : Layout :=
  if l.any (fun s => s.instanceId = e.instanceId) then
    l.map (fun s => if s.instanceId = e.instanceId then e else s)
  else
    l ++ [e]

/-- `m_screens.erase(instanceId)`. -/
def screensErase (l : Layout) (id : String) : Layout :=
  l.filter (fun s => s.instanceId ≠ id)

/-- `LayoutManager::setServerScreen`: install the server entry at (0,0). -/
def setServerScreen (l : Layout) (id name mid : String) (w h : Int) : Layout :=
  screensInsert l
    { instanceId := id, displayName := name, machineId := mid,
      x := 0, y := 0, width := w, height := h,
      isServer := true, online := true }

/-- The `maxRight` computation in `LayoutManager::registerClient`:
`int32_t maxRight = 0; for (...) maxRight = max(maxRight, x + width)`. -/
def maxRight (l : Layout) : Int :=
  l.foldl (fun m s => max m (s.x + s.width)) 0

/-- `LayoutManager::registerClient`: place the new client at
`x = maxRight`, `y = 0` and insert it.  Returns the placed entry together
with the updated screen map, as the C++ member function does. -/
def registerClient (l : Layout) (id name mid : String) (w h : Int) :
    ScreenEntry × Layout :=
  let entry : ScreenEntry :=
    { instanceId := id, displayName := name, machineId := mid,
      x := maxRight l, y := 0, width := w, height := h,
      isServer := false, online := true }
  (entry, screensInsert l entry)

/-- The insertion step of the sort in `LayoutManager::arrangeScreens` /
`getLayout` (`std::sort` with comparator `a.x < b.x`). -/
def insertByX (e : ScreenEntry) : Layout → Layout
  | [] => [e]
  | a :: t => if e.x < a.x then e :: a :: t else a :: insertByX e t

/-- Sorting by `x` ascending (`std::sort` with `a.x < b.x`); insertion sort
is one valid implementation, and for inputs whose `x` values are pairwise
distinct every conforming implementation produces this result. -/
def sortByX (l : Layout) : Layout :=
  l.foldr insertByX []

/-- The repositioning loop of `LayoutManager::arrangeScreens`:
`screen->x = currentX; screen->y = 0; currentX += screen->width`. -/
def packAt (x0 : Int) : Layout → Layout
  | [] => []
  | s :: t => { s with x := x0, y := 0 } :: packAt (x0 + s.width) t

/-- `LayoutManager::arrangeScreens`: sort the remaining screens by their
original `x` and pack them left-to-right from `x = 0`, each at `y = 0`. -/
def arrangeScreens (l : Layout) : Layout :=
  packAt 0 (sortByX l)

/-- `LayoutManager::unregisterClient`: erase, then re-arrange. -/
def unregisterClient (l : Layout) (id : String) : Layout :=
  arrangeScreens (screensErase l id)

/-- `LayoutManager::setClientOnline`. -/
def setClientOnline (l : Layout) (id : String) (online : Bool) : Layout :=
  l.map (fun s => if s.instanceId = id then { s with online := online } else s)

/-- `LayoutManager::getLayout`: all screens sorted by `x`. -/
def getLayout (l : Layout) : Layout :=
  sortByX l

/-- One iteration of the neighbour scan in `LayoutManager::getAdjacencyFor`:
skip the screen itself, otherwise fill each slot whose collinearity test
holds (`other.x + other.width == screen.x` for left, and so on). -/
def adjacencyStep (id : String) (screen : ScreenEntry) (adj : Adjacency)
    (other : ScreenEntry) : Adjacency :=
  if other.instanceId = id then adj
  else
    { left := if other.x + other.width = screen.x then some other.instanceId else adj.left,
      right := if screen.x + screen.width = other.x then some other.instanceId else adj.right,
      top := if other.y + other.height = screen.y then some other.instanceId else adj.top,
      bottom := if screen.y + screen.height = other.y then some other.instanceId else adj.bottom }

/-- `LayoutManager::getAdjacencyFor`: derive the four neighbour slots from
the current positions.  Note that the source tests only edge collinearity
(`other.x + other.width == screen.x` etc.); it never looks at the
perpendicular extents. -/
def getAdjacencyFor (l : Layout) (id : String) : Adjacency :=
  match findScreen l id with
  | none => {}
  | some screen => l.foldl (adjacencyStep id screen) {}

/-- Select the slot of an `Adjacency` named by a `Side` (the `switch` in
`LayoutManager::getTransitionTargetAtEdge`). -/
def adjSlot (adj : Adjacency) : Side → Option String
  | .left => adj.left
  | .right => adj.right
  | .top => adj.top
  | .bottom => adj.bottom

/-- The landing-coordinate `switch` of
`LayoutManager::getTransitionTargetAtEdge`. -/
def landingCoords (fromScreen targetScreen : ScreenEntry) (edge : Side)
    (x y : Int) : Int × Int :=
  match edge with
  | .left => (targetScreen.width - 2,
      cppClamp (y - fromScreen.y) 0 (targetScreen.height - 1))
  | .right => (1, cppClamp (y - fromScreen.y) 0 (targetScreen.height - 1))
  | .top => (cppClamp (x - fromScreen.x) 0 (targetScreen.width - 1),
      targetScreen.height - 2)
  | .bottom => (cppClamp (x - fromScreen.x) 0 (targetScreen.width - 1), 1)

/-- `LayoutManager::getTransitionTargetAtEdge`: look up the source screen,
derive its adjacency, pick the slot for the requested edge, and if the
target exists and is online compute the landing coordinates. -/
def getTransitionTargetAtEdge (l : Layout) (fromId : String) (edge : Side)
    (x y : Int) : Option TransitionTarget :=
  match findScreen l fromId with
  | none => none
  | some fromScreen =>
    match adjSlot (getAdjacencyFor l fromId) edge with
    | none => none
    | some targetId =>
      match findScreen l targetId with
      | none => none
      | some targetScreen =>
        if !targetScreen.online then none
        else
          let c := landingCoords fromScreen targetScreen edge x y
          some { targetScreen := targetScreen, newX := c.1, newY := c.2 }

/-! ## Konflikt application state (Konflikt.h) -/

/-- `InstanceRole` from Konflikt.h. -/
inductive InstanceRole where
  | server
  | client
deriving Repr, DecidableEq

/-- `ConnectionStatus` from Konflikt.h. -/
inductive ConnectionStatus where
  | disconnected
  | connecting
  | connected
  | error
deriving Repr, DecidableEq

/-- `Rect` from Rect.h (value-default-initialised to zeros). -/
structure Rect where
  x : Int := 0
  y : Int := 0
  width : Int := 0
  height : Int := 0
deriving Repr, DecidableEq

/-- `Display` from Platform.h (the fields `getEdgeSettingsForPoint` reads). -/
structure Display where
  id : Nat
  x : Int
  y : Int
  width : Int
  height : Int
deriving Repr, DecidableEq

/-- `Config::DisplayEdges`: per-display edge-enable flags.  The struct
declaration is absent from the provided sources (only its uses are); it is
reconstructed from those uses and from the spec's `displayEdges` map of
`displayId → {left, right, top, bottom}` booleans. -/
structure DisplayEdges where
  left : Bool
  right : Bool
  top : Bool
  bottom : Bool
deriving Repr, DecidableEq

/-- `Konflikt::ConnectedClient` from Konflikt.h. -/
structure ConnectedClient where
  instanceId : String
  displayName : String
  screenWidth : Int
  screenHeight : Int
  connectedAt : Nat
  active : Bool
deriving Repr, DecidableEq

/-- `ClientRegistrationMessage` from Protocol.h. -/
structure ClientRegistrationMessage where
  instanceId : String
  displayName : String
  machineId : String
  screenWidth : Int
  screenHeight : Int
deriving Repr, DecidableEq

/-- `HandshakeRequest` from Protocol.h (the fields the server handler
reads). -/
structure HandshakeRequest where
  instanceId : String
  instanceName : String
deriving Repr, DecidableEq

/-- `ClipboardSyncMessage`.  The struct declaration is absent from the
provided sources; the fields are reconstructed from their uses in
`Konflikt::handleClipboardSync` / `broadcastClipboard` and from the spec's
wire format `{sourceInstanceId, format, data, sequence, timestamp}` with
`sequence` a `u32`. -/
structure ClipboardSyncMessage where
  sourceInstanceId : String
  format : String
  data : String
  sequence : Nat
deriving Repr, DecidableEq

/-- `DeactivationRequestMessage` from Protocol.h. -/
structure DeactivationRequestMessage where
  instanceId : String
deriving Repr, DecidableEq

/-- `ServerShutdownMessage`.  The struct declaration is absent from the
provided sources; fields reconstructed from `Konflikt::notifyShutdown` /
`handleServerShutdown` and the spec's `{reason, delayMs, timestamp}`. -/
structure ServerShutdownMessage where
  reason : String
  delayMs : Int
deriving Repr, DecidableEq

/-- An outgoing protocol message, as far as the verified handlers build
them. -/
inductive OutMsg where
  | activateClient (targetInstanceId : String) (cursorX cursorY : Int) (timestamp : Nat)
  | inputEvent (sourceInstanceId eventType : String) (x y dx dy : Int)
  | handshakeResponse (accepted : Bool) (instanceId instanceName : String)
  | layoutAssignment (posX posY : Int) (adjacency : Adjacency) (fullLayout : Layout)
  | clipboardSync (msg : ClipboardSyncMessage)
  | deactivationRequest (instanceId : String)
deriving Repr, DecidableEq

/-- An externally visible effect performed by a handler. -/
inductive Action where
  | broadcast (m : OutMsg)
  | sendTo (conn : Nat) (m : OutMsg)
  | sendToServer (m : OutMsg)
  | hideCursor
  | showCursor
  | sendMouseEvent (x y : Int)
  | setClipboardText (text : String)
deriving Repr, DecidableEq

/-- The fields of the `Konflikt` class that the verified handlers read or
write.  Connections (`void *`) are modelled as `Nat` tokens;
`mLayoutManager` (a nullable owning pointer) as `Option Layout`;
`mWsClient->host().empty()` as the flag `wsHostNonempty`. -/
structure KState where
  role : InstanceRole
  instanceId : String
  instanceName : String
  edgeLeft : Bool
  edgeRight : Bool
  edgeTop : Bool
  edgeBottom : Bool
  lockCursorToScreen : Bool
  displayEdges : List (Nat × DisplayEdges)
  displays : List Display
  screenBounds : Rect
  virtualCursorX : Int
  virtualCursorY : Int
  hasVirtualCursor : Bool
  activeRemoteScreenBounds : Rect
  activatedClientId : String
  lastDeactivationTime : Nat
  layoutManager : Option Layout
  connectionToInstanceId : List (Nat × String)
  connectedClients : List (String × ConnectedClient)
  lastClipboardText : String
  clipboardSequence : Nat
  isActiveInstance : Bool
  connectionStatus : ConnectionStatus
  reconnectAttempts : Nat
  lastReconnectAttempt : Nat
  expectingReconnect : Bool
  expectedRestartDelayMs : Int
  wsHostNonempty : Bool
deriving Repr, DecidableEq

/-- Association-list lookup (an `unordered_map::find`). -/
def alistFind {α β : Type} [DecidableEq α] (l : List (α × β)) (k : α) : Option β :=
  (l.find? (fun p => p.1 = k)).map Prod.snd

/-- Association-list insert-replace (an `unordered_map` `operator[]=`). -/
def alistInsert {α β : Type} [DecidableEq α] (l : List (α × β)) (k : α) (v : β) :
    List (α × β) :=
  if l.any (fun p => p.1 = k) then
    l.map (fun p => if p.1 = k then (k, v) else p)
  else
    l ++ [(k, v)]

/-- Association-list erase (an `unordered_map::erase`). -/
def alistErase {α β : Type} [DecidableEq α] (l : List (α × β)) (k : α) :
    List (α × β) :=
  l.filter (fun p => p.1 ≠ k)

/-! ## Konflikt handlers (Konflikt.cpp) -/

/-- The screen map behind `mLayoutManager`, or empty when the pointer is
null (the server paths that dereference it always guard on non-null). -/
def KState.layoutOrEmpty (s : KState) : Layout :=
  s.layoutManager.getD []

/-- `MAX_RECONNECT_ATTEMPTS` from Konflikt.h. -/
def MAX_RECONNECT_ATTEMPTS : Nat := 10

/-- `RECONNECT_DELAY_MS` from Konflikt.h. -/
def RECONNECT_DELAY_MS : Nat := 3000

/-- `Konflikt::getEdgeSettingsForPoint`: find the first display containing
`(x, y)`; if per-display settings exist for it use them, otherwise
(including when no display contains the point) fall back to the global
edge flags.  The `break` in the source makes only the first containing
display relevant. -/
def getEdgeSettingsForPoint (s : KState) (x y : Int) : DisplayEdges :=
  let global : DisplayEdges :=
    { left := s.edgeLeft, right := s.edgeRight, top := s.edgeTop, bottom := s.edgeBottom }
  match s.displays.find? (fun d =>
      x ≥ d.x ∧ x < d.x + d.width ∧ y ≥ d.y ∧ y < d.y + d.height) with
  | none => global
  | some d =>
    match alistFind s.displayEdges d.id with
    | some e => e
    | none => global

/-- The edge-detection cascade of `Konflikt::checkScreenTransition`
(`EDGE_THRESHOLD = 1`). -/
def detectEdge (s : KState) (edges : DisplayEdges) (x y : Int) : Option Side :=
  if x ≤ s.screenBounds.x + 1 ∧ edges.left then some .left
  else if x ≥ s.screenBounds.x + s.screenBounds.width - 2 ∧ edges.right then some .right
  else if y ≤ s.screenBounds.y + 1 ∧ edges.top then some .top
  else if y ≥ s.screenBounds.y + s.screenBounds.height - 2 ∧ edges.bottom then some .bottom
  else none

/-- `Konflikt::activateClient`: flip the `active` flags, record the
activated id, broadcast `activate_client`, initialise the virtual cursor,
record the active remote bounds, hide the cursor. -/
def activateClient (s : KState) (now : Nat) (targetInstanceId : String)
    (cursorX cursorY : Int) : KState × List Action :=
  let clients0 :=
    if s.activatedClientId ≠ "" then
      s.connectedClients.map (fun p =>
        if p.1 = s.activatedClientId then (p.1, { p.2 with active := false }) else p)
    else s.connectedClients
  let clients1 :=
    clients0.map (fun p =>
      if p.1 = targetInstanceId then (p.1, { p.2 with active := true }) else p)
  let bounds :=
    match findScreen (s.layoutOrEmpty) targetInstanceId with
    | some sc => { x := 0, y := 0, width := sc.width, height := sc.height : Rect }
    | none => s.activeRemoteScreenBounds
  ({ s with
      connectedClients := clients1,
      activatedClientId := targetInstanceId,
      virtualCursorX := cursorX,
      virtualCursorY := cursorY,
      hasVirtualCursor := true,
      activeRemoteScreenBounds := bounds,
      isActiveInstance := false },
   [Action.broadcast (OutMsg.activateClient targetInstanceId cursorX cursorY now),
    Action.hideCursor])

/-- `Konflikt::deactivateRemoteScreen`: clear the active flag and virtual
cursor, show the cursor, warp it to the right edge of the server bounds at
the platform's current `y`, and record the deactivation time.  `platY` is
`mPlatform->getState().y`. -/
def deactivateRemoteScreen (s : KState) (now : Nat) (platY : Int) :
    KState × List Action :=
  let clients :=
    if s.activatedClientId ≠ "" then
      s.connectedClients.map (fun p =>
        if p.1 = s.activatedClientId then (p.1, { p.2 with active := false }) else p)
    else s.connectedClients
  ({ s with
      connectedClients := clients,
      virtualCursorX := 0,
      virtualCursorY := 0,
      hasVirtualCursor := false,
      activatedClientId := "",
      activeRemoteScreenBounds := {},
      isActiveInstance := true,
      lastDeactivationTime := now },
   [Action.showCursor,
    Action.sendMouseEvent (s.screenBounds.x + s.screenBounds.width - 1) platY])

/-- `Konflikt::checkScreenTransition`.  Returns the bool the source
returns, the successor state, and the emitted actions.  `now` is the value
of `timestamp()`. -/
def checkScreenTransition (s : KState) (now : Nat) (x y : Int) :
    Bool × KState × List Action :=
  if s.role ≠ InstanceRole.server ∨ s.layoutManager = none then (false, s, [])
  else if s.lockCursorToScreen then (false, s, [])
  else if now - s.lastDeactivationTime < 500 then (false, s, [])
  else
    let edges := getEdgeSettingsForPoint s x y
    match detectEdge s edges x y with
    | none => (false, s, [])
    | some edge =>
      match getTransitionTargetAtEdge s.layoutOrEmpty s.instanceId edge x y with
      | none => (false, s, [])
      | some t =>
        if s.activatedClientId = t.targetScreen.instanceId then (true, s, [])
        else
          let (s', acts) := activateClient s now t.targetScreen.instanceId t.newX t.newY
          (true, s', acts)

/-- The `MouseMove` branch of `Konflikt::onPlatformEvent`: with a virtual
cursor and an activated client, clamp-move the virtual cursor inside the
active remote bounds and broadcast the move; otherwise check for a screen
transition.  `(x, y)` is `event.state.x/y`, `(dx, dy)` the relative
motion. -/
def onMouseMove (s : KState) (now : Nat) (x y dx dy : Int) :
    KState × List Action :=
  if s.hasVirtualCursor ∧ s.activatedClientId ≠ "" then
    let newX := cppClamp (s.virtualCursorX + dx) 0 (s.activeRemoteScreenBounds.width - 1)
    let newY := cppClamp (s.virtualCursorY + dy) 0 (s.activeRemoteScreenBounds.height - 1)
    ({ s with virtualCursorX := newX, virtualCursorY := newY },
     [Action.broadcast (OutMsg.inputEvent s.instanceId "mouseMove" newX newY dx dy)])
  else
    let r := checkScreenTransition s now x y
    (r.2.1, r.2.2)

/-- `Konflikt::handleClipboardSync`: drop own updates, drop stale
sequences, otherwise record the sequence; the text and the platform
clipboard are updated only for `format == "text/plain"`. -/
def handleClipboardSync (s : KState) (msg : ClipboardSyncMessage) :
    KState × List Action :=
  if msg.sourceInstanceId = s.instanceId then (s, [])
  else if msg.sequence ≤ s.clipboardSequence then (s, [])
  else
    let s1 := { s with clipboardSequence := msg.sequence }
    if msg.format = "text/plain" then
      ({ s1 with lastClipboardText := msg.data }, [Action.setClipboardText msg.data])
    else (s1, [])

/-- `Konflikt::broadcastClipboard`: increment the shared sequence counter
(`uint32_t`, so modulo `2^32`) and send a `text/plain` sync — the server
broadcasts it, a client sends it to the server. -/
def broadcastClipboard (s : KState) (text : String) : KState × List Action :=
  let seq := (s.clipboardSequence + 1) % 2 ^ 32
  let msg : ClipboardSyncMessage :=
    { sourceInstanceId := s.instanceId, format := "text/plain",
      data := text, sequence := seq }
  ({ s with clipboardSequence := seq },
   if s.role = InstanceRole.server then [Action.broadcast (OutMsg.clipboardSync msg)]
   else [Action.sendToServer (OutMsg.clipboardSync msg)])

/-- `Konflikt::handleClientRegistration`: a server with a layout manager
records the `ConnectedClient`, registers the screen with the layout
manager, and broadcasts the resulting `layout_assignment`.  No handshake
state is consulted. -/
def handleClientRegistration (s : KState) (now : Nat)
    (msg : ClientRegistrationMessage) : KState × List Action :=
  if s.role ≠ InstanceRole.server ∨ s.layoutManager = none then (s, [])
  else
    let client : ConnectedClient :=
      { instanceId := msg.instanceId, displayName := msg.displayName,
        screenWidth := msg.screenWidth, screenHeight := msg.screenHeight,
        connectedAt := now, active := false }
    let (entry, l') := registerClient s.layoutOrEmpty msg.instanceId
      msg.displayName msg.machineId msg.screenWidth msg.screenHeight
    ({ s with
        connectedClients := alistInsert s.connectedClients msg.instanceId client,
        layoutManager := some l' },
     [Action.broadcast (OutMsg.layoutAssignment entry.x entry.y
        (getAdjacencyFor l' msg.instanceId) (getLayout l'))])

/-- `Konflikt::handleHandshakeRequest`: record the connection→id binding
(insert-replace) and answer with an accepting `handshake_response`.  No
duplicate-id check is made and no existing connection is closed. -/
def handleHandshakeRequest (s : KState) (conn : Nat) (req : HandshakeRequest) :
    KState × List Action :=
  ({ s with connectionToInstanceId := alistInsert s.connectionToInstanceId conn req.instanceId },
   [Action.sendTo conn (OutMsg.handshakeResponse true s.instanceId s.instanceName)])

/-- `Konflikt::onClientDisconnected`: if the connection had handshaken,
deactivate when it was the active client, mark its screen offline, and
drop the connection binding and the `ConnectedClient` entry. -/
def onClientDisconnected (s : KState) (conn : Nat) (now : Nat) (platY : Int) :
    KState × List Action :=
  match alistFind s.connectionToInstanceId conn with
  | none => (s, [])
  | some id =>
    let r :=
      if id = s.activatedClientId then deactivateRemoteScreen s now platY
      else (s, [])
    ({ r.1 with
        layoutManager := r.1.layoutManager.map (fun l => setClientOnline l id false),
        connectionToInstanceId := alistErase r.1.connectionToInstanceId conn,
        connectedClients := alistErase r.1.connectedClients id },
     r.2)

/-- `Konflikt::handleDeactivationRequest`: a server deactivates when the
request comes from the currently activated client. -/
def handleDeactivationRequest (s : KState) (msg : DeactivationRequestMessage)
    (now : Nat) (platY : Int) : KState × List Action :=
  if s.role ≠ InstanceRole.server then (s, [])
  else if msg.instanceId ≠ s.activatedClientId then (s, [])
  else deactivateRemoteScreen s now platY

/-- `Konflikt::handleServerShutdown`: note the expected restart delay,
reset the attempt counter, and mark the connection as disconnected. -/
def handleServerShutdown (s : KState) (msg : ServerShutdownMessage) : KState :=
  { s with
      expectingReconnect := true,
      expectedRestartDelayMs := msg.delayMs,
      reconnectAttempts := 0,
      connectionStatus := ConnectionStatus.disconnected }

/-- The `onConnect` callback installed in `Konflikt::init` for clients:
mark connected, reset the reconnect state, and send the handshake. -/
def clientOnConnect (s : KState) : KState :=
  { s with
      connectionStatus := ConnectionStatus.connected,
      reconnectAttempts := 0,
      expectingReconnect := false,
      expectedRestartDelayMs := 0 }

/-- The `onDisconnect` callback installed in `Konflikt::init` for clients:
mark disconnected and zero `mLastReconnectAttempt` ("Allow immediate first
attempt"). -/
def clientOnDisconnect (s : KState) : KState :=
  { s with
      connectionStatus := ConnectionStatus.disconnected,
      lastReconnectAttempt := 0 }

/-- The delay the auto-reconnect block of `Konflikt::run` computes for the
next attempt. -/
def reconnectDelay (s : KState) : Nat :=
  if s.expectingReconnect then
    if s.expectedRestartDelayMs > 0 then s.expectedRestartDelayMs.toNat + 500
    else 1000
  else RECONNECT_DELAY_MS

/-- The auto-reconnect block in the main loop of `Konflikt::run`: a
disconnected client with a known host and remaining attempts retries once
`now - mLastReconnectAttempt` reaches the computed delay.  Returns whether
a reconnect was attempted. -/
def reconnectTick (s : KState) (now : Nat) : Bool × KState :=
  if s.role = InstanceRole.client ∧ s.connectionStatus = ConnectionStatus.disconnected ∧
      s.wsHostNonempty ∧ s.reconnectAttempts < MAX_RECONNECT_ATTEMPTS then
    if now - s.lastReconnectAttempt ≥ reconnectDelay s then
      (true, { s with
          lastReconnectAttempt := now,
          reconnectAttempts := s.reconnectAttempts + 1,
          connectionStatus := ConnectionStatus.connecting })
    else (false, s)
  else (false, s)

/-! ## Derived definitions, spec-side rules and scenario states -/

/-- The collinearity test `getAdjacencyFor` applies for each side: the
candidate's far edge must touch this screen's near edge.  This is the
*only* geometric condition the source checks. -/
def adjCond (screen other : ScreenEntry) : Side → Prop
  | .left => other.x + other.width = screen.x
  | .right => screen.x + screen.width = other.x
  | .top => other.y + other.height = screen.y
  | .bottom => screen.y + screen.height = other.y

instance (screen other : ScreenEntry) (e : Side) : Decidable (adjCond screen other e) := by
  cases e <;> simp only [adjCond] <;> infer_instance

/-- The landing-coordinate rule as the specification states it: with
`rel_y = cursor_y - F.y` (resp. `rel_x = cursor_x - F.x`) clamped to
`[0, T.h-1]` (resp. `[0, T.w-1]`), the landing coordinate is `(T.w-2, rel_y)`
for left, `(1, rel_y)` for right, `(rel_x, T.h-2)` for top and `(rel_x, 1)`
for bottom crossings.  Stated with `min`/`max`; compared against the
code's `landingCoords` below. -/
def specLandingRule (f t : ScreenEntry) (edge : Side) (x y : Int) : Int × Int :=
  let relX := min (max (x - f.x) 0) (t.width - 1)
  let relY := min (max (y - f.y) 0) (t.height - 1)
  match edge with
  | .left => (t.width - 2, relY)
  | .right => (1, relY)
  | .top => (relX, t.height - 2)
  | .bottom => (relX, 1)

/-- The demo server screen (spec §8 scenario 1). -/
def demoServerScreen : ScreenEntry :=
  { instanceId := "S", displayName := "server", machineId := "m1",
    x := 0, y := 0, width := 1920, height := 1080,
    isServer := true, online := true }

/-- The demo client screen (spec §8 scenario 2: 1280×720 at x = 1920). -/
def demoClientScreen : ScreenEntry :=
  { instanceId := "C", displayName := "client", machineId := "m2",
    x := 1920, y := 0, width := 1280, height := 720,
    isServer := false, online := true }

/-- The demo two-screen layout. -/
def demoLayout : Layout := [demoServerScreen, demoClientScreen]

/-- The screens are packed left-to-right from `x0`: each entry sits flush
against the previous one's right edge, at `y = 0`. -/
def packedFrom : Int → Layout → Prop
  | _, [] => True
  | x0, s :: t => s.x = x0 ∧ s.y = 0 ∧ packedFrom (x0 + s.width) t

/-- Total width of a list of screens. -/
def sumW (l : Layout) : Int := (l.map (fun s => s.width)).sum

/-- Layout states reachable by `setServerScreen` followed by a sequence of
`registerClient` calls, with physically sensible screens (positive widths)
and fresh instance ids. -/
inductive ReachableLayout : Layout → Prop
  | server (id name mid : String) (w h : Int) (hw : 0 < w) :
      ReachableLayout (setServerScreen [] id name mid w h)
  | register (l : Layout) (id name mid : String) (w h : Int) (hw : 0 < w)
      (hfresh : findScreen l id = none) (hl : ReachableLayout l) :
      ReachableLayout (registerClient l id name mid w h).2

/-- A demo server-role engine state: demo layout installed, all edges
enabled, nothing activated. -/
def demoState : KState :=
  { role := InstanceRole.server, instanceId := "S", instanceName := "server",
    edgeLeft := true, edgeRight := true, edgeTop := true, edgeBottom := true,
    lockCursorToScreen := false, displayEdges := [], displays := [],
    screenBounds := { x := 0, y := 0, width := 1920, height := 1080 },
    virtualCursorX := 0, virtualCursorY := 0, hasVirtualCursor := false,
    activeRemoteScreenBounds := {}, activatedClientId := "",
    lastDeactivationTime := 0,
    layoutManager := some demoLayout,
    connectionToInstanceId := [], connectedClients := [],
    lastClipboardText := "", clipboardSequence := 0,
    isActiveInstance := true,
    connectionStatus := ConnectionStatus.connected,
    reconnectAttempts := 0, lastReconnectAttempt := 0,
    expectingReconnect := false, expectedRestartDelayMs := 0,
    wsHostNonempty := false }

/-- The demo state while the client `"C"` (1280×720) is activated and the
virtual cursor sits at `(0, 10)`. -/
def demoRemoteState : KState :=
  { demoState with
      hasVirtualCursor := true,
      activatedClientId := "C",
      activeRemoteScreenBounds := { x := 0, y := 0, width := 1280, height := 720 },
      virtualCursorX := 0, virtualCursorY := 10,
      isActiveInstance := false }

/-- The demo registration message used in the session scenarios. -/
def demoRegMsg : ClientRegistrationMessage :=
  { instanceId := "X", displayName := "xdisp", machineId := "xm",
    screenWidth := 800, screenHeight := 600 }

/-- The session scenario for C9: connection 1 handshakes as `"A"` and
registers; then connection 2 handshakes with the same instance id. -/
def c9AfterSecondHandshake : KState :=
  (handleHandshakeRequest
    (handleClientRegistration
      (handleHandshakeRequest demoState 1 { instanceId := "A", instanceName := "a" }).1
      10
      { instanceId := "A", displayName := "adisp", machineId := "am",
        screenWidth := 800, screenHeight := 600 }).1
    2 { instanceId := "A", instanceName := "a" }).1

/-- A demo connected client-role state (host known, no attempts yet). -/
def demoClientState : KState :=
  { demoState with
      role := InstanceRole.client,
      instanceId := "C", instanceName := "client",
      layoutManager := none,
      screenBounds := { x := 1920, y := 0, width := 1280, height := 720 },
      isActiveInstance := false,
      wsHostNonempty := true }

/-- The client state right after `server_shutdown{delayMs = 2000}` followed
by the socket disconnect. -/
def c7AfterDisconnect : KState :=
  clientOnDisconnect (handleServerShutdown demoClientState
    { reason := "restart", delayMs := 2000 })

/-- The C7 scenario one attempt in: first (immediate) attempt recorded at
wall-clock 1000010. -/
def c7AfterFirstAttempt : KState :=
  { c7AfterDisconnect with lastReconnectAttempt := 1000010, reconnectAttempts := 1 }

/-- The C7 scenario with the attempt budget exhausted. -/
def c7Exhausted : KState :=
  { c7AfterDisconnect with reconnectAttempts := 10 }

/-- The C7 scenario mid-way through the attempt budget. -/
def c7MidAttempts : KState :=
  { c7AfterDisconnect with reconnectAttempts := 7 }

/-! ## Helper lemmas -/

theorem cppClamp_eq_min_max (v hi : Int) (h : 0 ≤ hi) :
    cppClamp v 0 hi = min (max v 0) hi := by
  simp only [cppClamp, min_def, max_def]
  split_ifs <;> omega

theorem cppClamp_bounds (v lo hi : Int) (h : lo ≤ hi) :
    lo ≤ cppClamp v lo hi ∧ cppClamp v lo hi ≤ hi := by
  simp only [cppClamp]
  split_ifs <;> omega

theorem alistFind_map_replace_self {α β : Type} [DecidableEq α]
    (l : List (α × β)) (k : α) (v : β) (hmem : ∃ p ∈ l, p.1 = k) :
    alistFind (l.map (fun p => if p.1 = k then (k, v) else p)) k = some v := by
  induction l with
  | nil => simp at hmem
  | cons p t ih =>
    by_cases hp : p.1 = k
    · simp [alistFind, List.find?, hp]
    · obtain ⟨q, hq, hqk⟩ := hmem
      rcases List.mem_cons.mp hq with rfl | hq
      · exact absurd hqk hp
      · simpa [alistFind, List.find?, hp] using ih ⟨q, hq, hqk⟩

theorem alistFind_map_replace_ne {α β : Type} [DecidableEq α]
    (l : List (α × β)) (k k' : α) (v : β) (hne : k' ≠ k) :
    alistFind (l.map (fun p => if p.1 = k then (k, v) else p)) k' = alistFind l k' := by
  induction l with
  | nil => rfl
  | cons p t ih =>
    by_cases hp : p.1 = k
    · simpa [alistFind, List.find?, hp, Ne.symm hne, hp.symm ▸ Ne.symm hne] using ih
    · by_cases hq : p.1 = k'
      · simp [alistFind, List.find?, hp, hq, hne]
      · simpa [alistFind, List.find?, hp, hq] using ih

theorem alistFind_append_single_ne {α β : Type} [DecidableEq α]
    (l : List (α × β)) (k k' : α) (v : β) (hne : k' ≠ k) :
    alistFind (l ++ [(k, v)]) k' = alistFind l k' := by
  induction l with
  | nil => simp [alistFind, List.find?, Ne.symm hne]
  | cons p t ih =>
    by_cases hq : p.1 = k'
    · simp [alistFind, List.find?, hq]
    · simpa [alistFind, List.find?, hq] using ih

theorem alistFind_insert_self {α β : Type} [DecidableEq α]
    (l : List (α × β)) (k : α) (v : β) :
    alistFind (alistInsert l k v) k = some v := by
  simp only [alistInsert]
  split
  case isTrue h =>
    obtain ⟨q, hq, hk⟩ := List.any_eq_true.mp h
    simp only [decide_eq_true_eq] at hk
    exact alistFind_map_replace_self l k v ⟨q, hq, hk⟩
  case isFalse h =>
    induction l with
    | nil => simp [alistFind, List.find?]
    | cons p t ih =>
      have hp : ¬ p.1 = k := by
        intro hk
        exact h (List.any_eq_true.mpr ⟨p, List.mem_cons_self p t, by simp [hk]⟩)
      have ht : ¬ t.any (fun q => decide (q.1 = k)) = true := by
        intro hth
        obtain ⟨q, hq, hk⟩ := List.any_eq_true.mp hth
        exact h (List.any_eq_true.mpr ⟨q, List.mem_cons_of_mem p hq, hk⟩)
      simpa [alistFind, List.find?, hp] using ih ht

theorem alistFind_insert_ne {α β : Type} [DecidableEq α]
    (l : List (α × β)) (k k' : α) (v : β) (hne : k' ≠ k) :
    alistFind (alistInsert l k v) k' = alistFind l k' := by
  simp only [alistInsert]
  split
  · exact alistFind_map_replace_ne l k k' v hne
  · exact alistFind_append_single_ne l k k' v hne

theorem alistFind_erase_self {α β : Type} [DecidableEq α]
    (l : List (α × β)) (k : α) :
    alistFind (alistErase l k) k = none := by
  have h : (List.filter (fun p => decide (p.1 ≠ k)) l).find? (fun p => decide (p.1 = k)) = none := by
    rw [List.find?_eq_none]
    intro p hp
    have hmem := List.of_mem_filter hp
    simp only [decide_eq_true_eq] at hmem ⊢
    exact hmem
  simp [alistFind, alistErase, h]

theorem adjSlot_adjacencyStep (id : String) (screen : ScreenEntry)
    (adj : Adjacency) (other : ScreenEntry) (e : Side) :
    adjSlot (adjacencyStep id screen adj other) e =
      if other.instanceId = id then adjSlot adj e
      else if adjCond screen other e then some other.instanceId
      else adjSlot adj e := by
  by_cases h : other.instanceId = id
  · simp [adjacencyStep, h]
  · cases e <;> simp [adjacencyStep, adjSlot, adjCond, h]

theorem adjSlot_foldl_sound (id : String) (screen : ScreenEntry) (e : Side) :
    ∀ (l : Layout) (adj : Adjacency) (aid : String),
      adjSlot (l.foldl (adjacencyStep id screen) adj) e = some aid →
      adjSlot adj e = some aid ∨
        ∃ o ∈ l, o.instanceId = aid ∧ o.instanceId ≠ id ∧ adjCond screen o e := by
  intro l
  induction l with
  | nil => intro adj aid h; exact Or.inl h
  | cons o t ih =>
    intro adj aid h
    rcases ih (adjacencyStep id screen adj o) aid h with h1 | ⟨q, hq, hrest⟩
    · rw [adjSlot_adjacencyStep] at h1
      by_cases ho : o.instanceId = id
      · rw [if_pos ho] at h1
        exact Or.inl h1
      · rw [if_neg ho] at h1
        by_cases hc : adjCond screen o e
        · rw [if_pos hc] at h1
          exact Or.inr ⟨o, List.mem_cons_self o t, Option.some_inj.mp h1, ho, hc⟩
        · rw [if_neg hc] at h1
          exact Or.inl h1
    · exact Or.inr ⟨q, List.mem_cons_of_mem o hq, hrest⟩

theorem adjSlot_foldl_isSome_mono (id : String) (screen : ScreenEntry) (e : Side) :
    ∀ (l : Layout) (adj : Adjacency),
      (adjSlot adj e).isSome → (adjSlot (l.foldl (adjacencyStep id screen) adj) e).isSome := by
  intro l
  induction l with
  | nil => intro adj h; exact h
  | cons o t ih =>
    intro adj h
    apply ih
    rw [adjSlot_adjacencyStep]
    split_ifs <;> simp [h]

theorem adjSlot_foldl_complete (id : String) (screen : ScreenEntry) (e : Side) :
    ∀ (l : Layout) (adj : Adjacency),
      (∃ o ∈ l, o.instanceId ≠ id ∧ adjCond screen o e) →
      (adjSlot (l.foldl (adjacencyStep id screen) adj) e).isSome := by
  intro l
  induction l with
  | nil => intro adj h; simp at h
  | cons o t ih =>
    intro adj ⟨q, hq, hqid, hqc⟩
    rcases List.mem_cons.mp hq with rfl | hq
    · rw [List.foldl_cons]
      apply adjSlot_foldl_isSome_mono
      rw [adjSlot_adjacencyStep, if_neg hqid, if_pos hqc]
      rfl
    · exact ih _ ⟨q, hq, hqid, hqc⟩

theorem adjSlot_default (e : Side) : adjSlot {} e = none := by
  cases e <;> rfl

/-- C2 — counterexample.  In the layout with screen `A` occupying
`[0,100)×[0,100)` and screen `B` occupying `[100,200)×[1000,1100)`, the
vertical extents of `A` and `B` share no pixel (`A` ends at `y = 100`,
`B` starts at `y = 1000`), yet `getAdjacencyFor` reports `A` as the left
neighbour of `B` because it tests only `A.x + A.w == B.x`.  The claimed
"if and only if ... AND the vertical extents overlap by at least one
pixel" is therefore false of the code. -/
theorem adjacency_no_overlap_check_counterexample :
    (getAdjacencyFor
        [{ instanceId := "A", displayName := "", machineId := "",
           x := 0, y := 0, width := 100, height := 100,
           isServer := false, online := true },
         { instanceId := "B", displayName := "", machineId := "",
           x := 100, y := 1000, width := 100, height := 100,
           isServer := false, online := true }] "B").left = some "A"
    ∧ ¬ (max (0 : Int) 1000 < min (0 + 100) (1000 + 100)) := by
  constructor
  · rfl
  · decide

/-- C2 — amended.  For every side, `getAdjacencyFor` fills the slot with
the id of some *other* screen satisfying the single collinearity equation
for that side (`A.x + A.w == B.x` for a left neighbour, symmetrically for
the other sides), and the slot is filled whenever such a screen exists.
No overlap of the perpendicular extents is required; when several screens
satisfy the equation, which one is reported depends on the unordered-map
iteration order (modelled here as the list order, last match winning). -/
theorem getAdjacencyFor_collinearity (l : Layout) (b : ScreenEntry) (e : Side)
    (hb : findScreen l b.instanceId = some b) :
    (∀ aid, adjSlot (getAdjacencyFor l b.instanceId) e = some aid →
        ∃ a ∈ l, a.instanceId = aid ∧ a.instanceId ≠ b.instanceId ∧ adjCond b a e)
    ∧ ((∃ a ∈ l, a.instanceId ≠ b.instanceId ∧ adjCond b a e) →
        (adjSlot (getAdjacencyFor l b.instanceId) e).isSome) := by
  constructor
  · intro aid h
    rw [getAdjacencyFor, hb] at h
    rcases adjSlot_foldl_sound b.instanceId b e l {} aid h with h1 | h1
    · rw [adjSlot_default] at h1
      exact absurd h1 (by simp)
    · exact h1
  · intro h
    rw [getAdjacencyFor, hb]
    exact adjSlot_foldl_complete b.instanceId b e l {} h

/-- C2 — witness: in the demo layout the server `"S"` (right edge at
`x = 1920`) is reported as the left neighbour of the client `"C"`
(`x = 1920`), and the collinearity characterisation applies to it. -/
theorem getAdjacencyFor_collinearity_witness :
    ((adjSlot (getAdjacencyFor demoLayout "C") Side.left).isSome = true) ∧
    ∃ a ∈ demoLayout, a.instanceId = "S" ∧ a.instanceId ≠ "C" ∧
      adjCond demoClientScreen a Side.left := by
  have h := getAdjacencyFor_collinearity demoLayout demoClientScreen Side.left (by decide)
  refine ⟨h.2 ⟨demoServerScreen, by decide, by decide, by decide⟩, ?_⟩
  exact h.1 "S" (by decide)

/-- C3.  `getTransitionTargetAtEdge` returns exactly the spec's landing
coordinate for an online adjacent target (first conjunct), and `none`
when the from-id is unknown, when no neighbour occupies the requested
edge slot, when the neighbour id has no screen, or when the target is
offline (remaining conjuncts).  The positivity hypotheses on the target's
dimensions make `std::clamp`'s precondition `lo ≤ hi` hold. -/
theorem getTransitionTargetAtEdge_spec (l : Layout) (fromId : String)
    (edge : Side) (x y : Int) :
    (∀ F, findScreen l fromId = some F →
      ∀ tid, adjSlot (getAdjacencyFor l fromId) edge = some tid →
        ∀ T, findScreen l tid = some T → T.online = true →
          0 < T.width → 0 < T.height →
          getTransitionTargetAtEdge l fromId edge x y =
            some { targetScreen := T,
                   newX := (specLandingRule F T edge x y).1,
                   newY := (specLandingRule F T edge x y).2 })
    ∧ (findScreen l fromId = none →
        getTransitionTargetAtEdge l fromId edge x y = none)
    ∧ (∀ F, findScreen l fromId = some F →
        adjSlot (getAdjacencyFor l fromId) edge = none →
        getTransitionTargetAtEdge l fromId edge x y = none)
    ∧ (∀ tid, adjSlot (getAdjacencyFor l fromId) edge = some tid →
        findScreen l tid = none →
        getTransitionTargetAtEdge l fromId edge x y = none)
    ∧ (∀ tid T, adjSlot (getAdjacencyFor l fromId) edge = some tid →
        findScreen l tid = some T → T.online = false →
        getTransitionTargetAtEdge l fromId edge x y = none) := by
  refine ⟨?_, ?_, ?_, ?_, ?_⟩
  · intro F hF tid htid T hT honline hw hh
    simp only [getTransitionTargetAtEdge, hF, htid, hT, honline, Bool.not_true,
      Bool.false_eq_true, if_false]
    cases edge <;>
      simp [landingCoords, specLandingRule,
        cppClamp_eq_min_max _ _ (by omega : (0:Int) ≤ T.height - 1),
        cppClamp_eq_min_max _ _ (by omega : (0:Int) ≤ T.width - 1)]
  · intro h
    simp only [getTransitionTargetAtEdge, h]
  · intro F hF h
    simp only [getTransitionTargetAtEdge, hF, h]
  · intro tid htid h
    cases hF : findScreen l fromId with
    | none => simp only [getTransitionTargetAtEdge, hF]
    | some F => simp only [getTransitionTargetAtEdge, hF, htid, h]
  · intro tid T htid hT hoff
    cases hF : findScreen l fromId with
    | none => simp only [getTransitionTargetAtEdge, hF]
    | some F =>
      simp only [getTransitionTargetAtEdge, hF, htid, hT, hoff]
      simp

/-- C3 — witness: in the demo layout, a right-edge crossing from the
server at cursor `(1919, 400)` lands on the client at `(1, 400)` (spec §8
scenario 3). -/
theorem getTransitionTargetAtEdge_spec_witness :
    getTransitionTargetAtEdge demoLayout "S" Side.right 1919 400 =
      some { targetScreen := demoClientScreen, newX := 1, newY := 400 } := by
  have h := (getTransitionTargetAtEdge_spec demoLayout "S" Side.right 1919 400).1
    demoServerScreen (by decide) "C" (by decide) demoClientScreen (by decide)
    (by decide) (by decide) (by decide)
  rw [h]
  decide

/-! ## Layout round-trip (claim C8) -/

theorem findScreen_none_forall (l : Layout) (id : String)
    (h : findScreen l id = none) : ∀ s ∈ l, s.instanceId ≠ id := by
  intro s hs
  have := List.find?_eq_none.mp h s hs
  simpa using this

theorem screensInsert_fresh (l : Layout) (e : ScreenEntry)
    (h : findScreen l e.instanceId = none) : screensInsert l e = l ++ [e] := by
  rw [screensInsert, if_neg]
  intro hany
  obtain ⟨s, hs, hk⟩ := List.any_eq_true.mp hany
  exact findScreen_none_forall l e.instanceId h s hs (by simpa using hk)

theorem screensErase_fresh (l : Layout) (id : String)
    (h : findScreen l id = none) : screensErase l id = l := by
  rw [screensErase, List.filter_eq_self]
  intro s hs
  simpa using findScreen_none_forall l id h s hs

theorem foldl_max_packed (l : Layout) :
    ∀ (x0 m : Int), packedFrom x0 l → (∀ s ∈ l, 0 < s.width) → m ≤ x0 →
      l.foldl (fun m s => max m (s.x + s.width)) m =
        if l.isEmpty then m else x0 + sumW l := by
  induction l with
  | nil => intro x0 m _ _ _; rfl
  | cons s t ih =>
    intro x0 m hp hw hm
    obtain ⟨hx, _, hpt⟩ := hp
    have hsw : 0 < s.width := hw s (List.mem_cons_self s t)
    have hstep : max m (s.x + s.width) = x0 + s.width := by omega
    rw [List.foldl_cons, hstep,
      ih (x0 + s.width) (x0 + s.width) hpt
        (fun q hq => hw q (List.mem_cons_of_mem s hq)) le_rfl]
    cases t with
    | nil => simp [sumW]
    | cons a u => simp [sumW]; ring

theorem maxRight_packed (l : Layout) (hp : packedFrom 0 l)
    (hw : ∀ s ∈ l, 0 < s.width) (hne : l ≠ []) : maxRight l = sumW l := by
  rw [maxRight, foldl_max_packed l 0 0 hp hw le_rfl]
  cases l with
  | nil => exact absurd rfl hne
  | cons s t => simp

theorem packedFrom_append_single (l : Layout) :
    ∀ (x0 : Int) (e : ScreenEntry), packedFrom x0 l →
      e.x = x0 + sumW l → e.y = 0 → packedFrom x0 (l ++ [e]) := by
  induction l with
  | nil =>
    intro x0 e _ hx hy
    simp only [sumW, List.map_nil, List.sum_nil, add_zero] at hx
    exact ⟨hx, hy, trivial⟩
  | cons s t ih =>
    intro x0 e hp hx hy
    obtain ⟨hsx, hsy, hpt⟩ := hp
    refine ⟨hsx, hsy, ih (x0 + s.width) e hpt ?_ hy⟩
    rw [hx]
    simp [sumW]
    ring

theorem reachable_invariant (l : Layout) (h : ReachableLayout l) :
    packedFrom 0 l ∧ (∀ s ∈ l, 0 < s.width) ∧ l ≠ [] := by
  induction h with
  | server id name mid w h hw =>
    refine ⟨⟨rfl, rfl, trivial⟩, ?_, by simp [setServerScreen, screensInsert]⟩
    intro s hs
    simp only [setServerScreen, screensInsert, List.any_nil, List.nil_append,
      List.mem_singleton, if_neg Bool.false_ne_true] at hs
    simp [hs, hw]
  | register l id name mid w h hw hfresh hl ih =>
    obtain ⟨hp, hws, hne⟩ := ih
    have happ : (registerClient l id name mid w h).2 =
        l ++ [(registerClient l id name mid w h).1] := by
      simp only [registerClient]
      exact screensInsert_fresh l _ hfresh
    rw [happ]
    refine ⟨?_, ?_, by simp⟩
    · apply packedFrom_append_single l 0 _ hp
      · simp only [registerClient]
        rw [maxRight_packed l hp hws hne]
        ring
      · rfl
    · intro s hs
      rcases List.mem_append.mp hs with hs | hs
      · exact hws s hs
      · simp only [List.mem_singleton] at hs
        simp [hs, registerClient, hw]

theorem sortByX_packed (l : Layout) :
    ∀ x0, packedFrom x0 l → (∀ s ∈ l, 0 < s.width) → sortByX l = l := by
  induction l with
  | nil => intro x0 _ _; rfl
  | cons s t ih =>
    intro x0 hp hw
    obtain ⟨hx, _, hpt⟩ := hp
    have hst : sortByX t = t := ih (x0 + s.width) hpt
      (fun q hq => hw q (List.mem_cons_of_mem s hq))
    show insertByX s (sortByX t) = s :: t
    rw [hst]
    cases t with
    | nil => rfl
    | cons a u =>
      obtain ⟨hax, _, _⟩ := hpt
      have : s.x < a.x := by
        have := hw s (List.mem_cons_self s (a :: u))
        omega
      simp [insertByX, this]

theorem packAt_packed (l : Layout) :
    ∀ x0, packedFrom x0 l → packAt x0 l = l := by
  induction l with
  | nil => intro x0 _; rfl
  | cons s t ih =>
    intro x0 hp
    obtain ⟨hx, hy, hpt⟩ := hp
    have hhead : { s with x := x0, y := 0 } = s := by
      cases s
      simp_all
    rw [packAt, hhead, ih (x0 + s.width) hpt]

/-- C8.  For every layout reachable by `setServerScreen` followed by
`registerClient` calls (fresh ids, positive widths), registering a fresh
client and then unregistering that same client restores the layout
exactly; moreover every such layout is packed left-to-right from `x = 0`
with all screens at `y = 0` (so the server sits at `(0,0)` and the others
keep their prior order). -/
theorem register_unregister_roundtrip (l : Layout) (hl : ReachableLayout l)
    (id name mid : String) (w h : Int) (hfresh : findScreen l id = none) :
    unregisterClient (registerClient l id name mid w h).2 id = l ∧
      packedFrom 0 l := by
  obtain ⟨hp, hw, hne⟩ := reachable_invariant l hl
  refine ⟨?_, hp⟩
  have happ : (registerClient l id name mid w h).2 =
      l ++ [(registerClient l id name mid w h).1] := by
    simp only [registerClient]
    exact screensInsert_fresh l _ hfresh
  rw [unregisterClient, happ, screensErase, List.filter_append]
  have h1 : List.filter (fun s => decide (s.instanceId ≠ id)) l = l := by
    rw [List.filter_eq_self]
    intro s hs
    simpa using findScreen_none_forall l id hfresh s hs
  have h2 : List.filter (fun s => decide (s.instanceId ≠ id))
      [(registerClient l id name mid w h).1] = [] := by
    simp [registerClient]
  rw [h1, h2, List.append_nil, arrangeScreens, sortByX_packed l 0 hp hw, packAt_packed l 0 hp]

/-- C8 — witness: the demo server plus one registered client; registering
and unregistering a fresh client `"D"` restores the two-screen layout. -/
theorem register_unregister_roundtrip_witness :
    unregisterClient (registerClient
        (registerClient (setServerScreen [] "S" "server" "m1" 1920 1080)
          "C" "client" "m2" 1280 720).2 "D" "d" "m3" 640 480).2 "D" =
      (registerClient (setServerScreen [] "S" "server" "m1" 1920 1080)
        "C" "client" "m2" 1280 720).2 := by
  have hl : ReachableLayout (registerClient
      (setServerScreen [] "S" "server" "m1" 1920 1080) "C" "client" "m2" 1280 720).2 :=
    ReachableLayout.register _ "C" "client" "m2" 1280 720 (by decide) (by decide)
      (ReachableLayout.server "S" "server" "m1" 1920 1080 (by decide))
  exact (register_unregister_roundtrip _ hl "D" "d" "m3" 640 480 (by decide)).1

/-! ## Edge/cursor engine (claims C4, C5) -/

/-- C5.  While a virtual cursor is present (with an activated client), a
`MouseMove` with relative motion `(dx, dy)` updates it to exactly
`clamp(vc + d, 0, bound - 1)` in each axis, the result lies in
`[0, w) × [0, h)` whatever the previous position was, and the virtual
cursor and its bounds remain present and unchanged. -/
theorem virtualCursor_move_clamped (s : KState) (now : Nat) (x y dx dy : Int)
    (hvc : s.hasVirtualCursor = true) (hact : s.activatedClientId ≠ "")
    (hw : 0 < s.activeRemoteScreenBounds.width)
    (hh : 0 < s.activeRemoteScreenBounds.height) :
    ((onMouseMove s now x y dx dy).1.virtualCursorX =
        cppClamp (s.virtualCursorX + dx) 0 (s.activeRemoteScreenBounds.width - 1)) ∧
    ((onMouseMove s now x y dx dy).1.virtualCursorY =
        cppClamp (s.virtualCursorY + dy) 0 (s.activeRemoteScreenBounds.height - 1)) ∧
    (0 ≤ (onMouseMove s now x y dx dy).1.virtualCursorX ∧
      (onMouseMove s now x y dx dy).1.virtualCursorX < s.activeRemoteScreenBounds.width) ∧
    (0 ≤ (onMouseMove s now x y dx dy).1.virtualCursorY ∧
      (onMouseMove s now x y dx dy).1.virtualCursorY < s.activeRemoteScreenBounds.height) ∧
    (onMouseMove s now x y dx dy).1.hasVirtualCursor = true ∧
    (onMouseMove s now x y dx dy).1.activeRemoteScreenBounds = s.activeRemoteScreenBounds := by
  have hcond : (s.hasVirtualCursor = true ∧ s.activatedClientId ≠ "") := ⟨hvc, hact⟩
  have hxb := cppClamp_bounds (s.virtualCursorX + dx) 0
    (s.activeRemoteScreenBounds.width - 1) (by omega)
  have hyb := cppClamp_bounds (s.virtualCursorY + dy) 0
    (s.activeRemoteScreenBounds.height - 1) (by omega)
  simp only [onMouseMove, if_pos hcond]
  refine ⟨trivial, trivial, ⟨hxb.1, by have := hxb.2; omega⟩,
    ⟨hyb.1, by have := hyb.2; omega⟩, hvc, trivial⟩

/-- C5 — witness: the spec's boundary example — a virtual cursor at
`(0, 10)` receiving `dx = -5, dy = 0` in 1280×720 bounds remains at
`(0, 10)`. -/
theorem virtualCursor_move_clamped_witness :
    (onMouseMove demoRemoteState 5000 0 10 (-5) 0).1.virtualCursorX = 0 ∧
    (onMouseMove demoRemoteState 5000 0 10 (-5) 0).1.virtualCursorY = 10 := by
  have h := virtualCursor_move_clamped demoRemoteState 5000 0 10 (-5) 0
    (by decide) (by decide) (by decide) (by decide)
  refine ⟨?_, ?_⟩
  · rw [h.1]; decide
  · rw [h.2.1]; decide

theorem checkScreenTransition_cooldown (s : KState) (now : Nat) (x y : Int)
    (h : now - s.lastDeactivationTime < 500) :
    checkScreenTransition s now x y = (false, s, []) := by
  by_cases h1 : s.role ≠ InstanceRole.server ∨ s.layoutManager = none
  · rw [checkScreenTransition, if_pos h1]
  · rw [checkScreenTransition, if_neg h1]
    by_cases h2 : s.lockCursorToScreen = true
    · rw [if_pos h2]
    · rw [if_neg h2, if_pos h]

/-- C4.  After a deactivation at time `nowD` (both the
`deactivation_request` handler and the active-client disconnect path call
`deactivateRemoteScreen`, which stamps `lastDeactivationTime := nowD`):
any `MouseMove` processed at a time `now` with `now - nowD < 500`
milliseconds leaves the state completely unchanged and emits nothing (in
particular no `activate_client` broadcast, and the engine stays Local:
no virtual cursor, no activated client); and once `500 ≤ now - nowD`, a
`MouseMove` at an enabled edge with an online adjacent target does
transition, broadcasting `activate_client`. -/
theorem deactivation_cooldown (s : KState) (nowD now : Nat) (platY x y dx dy : Int)
    (hmono : nowD ≤ now) :
    (now - nowD < 500 →
      onMouseMove (deactivateRemoteScreen s nowD platY).1 now x y dx dy =
        ((deactivateRemoteScreen s nowD platY).1, []) ∧
      (deactivateRemoteScreen s nowD platY).1.hasVirtualCursor = false ∧
      (deactivateRemoteScreen s nowD platY).1.activatedClientId = "")
    ∧ (∀ (l : Layout) (edge : Side) (t : TransitionTarget),
        500 ≤ now - nowD →
        s.role = InstanceRole.server →
        s.layoutManager = some l →
        s.lockCursorToScreen = false →
        detectEdge s (getEdgeSettingsForPoint s x y) x y = some edge →
        getTransitionTargetAtEdge l s.instanceId edge x y = some t →
        t.targetScreen.instanceId ≠ "" →
        (checkScreenTransition (deactivateRemoteScreen s nowD platY).1 now x y).1 = true ∧
        Action.broadcast (OutMsg.activateClient t.targetScreen.instanceId t.newX t.newY now)
          ∈ (checkScreenTransition (deactivateRemoteScreen s nowD platY).1 now x y).2.2)
    ∧ (∀ msg : DeactivationRequestMessage,
        s.role = InstanceRole.server → msg.instanceId = s.activatedClientId →
        handleDeactivationRequest s msg nowD platY = deactivateRemoteScreen s nowD platY)
    ∧ (∀ conn : Nat,
        alistFind s.connectionToInstanceId conn = some s.activatedClientId →
        (onClientDisconnected s conn nowD platY).1.lastDeactivationTime = nowD) := by
  refine ⟨?_, ?_, ?_, ?_⟩
  · intro hcool
    have hlast : (deactivateRemoteScreen s nowD platY).1.lastDeactivationTime = nowD := rfl
    have hres := checkScreenTransition_cooldown (deactivateRemoteScreen s nowD platY).1
      now x y (by rw [hlast]; omega)
    refine ⟨?_, rfl, rfl⟩
    rw [onMouseMove, if_neg (by simp [deactivateRemoteScreen])]
    rw [hres]
  · intro l edge t hcool hrole hlm hlock hedge htarget htid
    have hlast : (deactivateRemoteScreen s nowD platY).1.lastDeactivationTime = nowD := rfl
    have e1 : detectEdge (deactivateRemoteScreen s nowD platY).1
        (getEdgeSettingsForPoint (deactivateRemoteScreen s nowD platY).1 x y) x y =
          some edge := hedge
    have e2 : (deactivateRemoteScreen s nowD platY).1.layoutOrEmpty = l := by
      simp [KState.layoutOrEmpty, deactivateRemoteScreen, hlm]
    have e3 : getTransitionTargetAtEdge
        ((deactivateRemoteScreen s nowD platY).1.layoutOrEmpty)
        ((deactivateRemoteScreen s nowD platY).1.instanceId) edge x y = some t := by
      rw [e2]; exact htarget
    rw [checkScreenTransition,
      if_neg (by simp [deactivateRemoteScreen, hrole, hlm]),
      if_neg (by simp [deactivateRemoteScreen, hlock]),
      if_neg (by rw [hlast]; omega)]
    simp only [e1, e3]
    rw [if_neg (fun hcontra => htid hcontra.symm)]
    simp [activateClient]
  · intro msg hrole hmsg
    rw [handleDeactivationRequest, if_neg (by simp [hrole]), if_neg (by simp [hmsg])]
  · intro conn hconn
    rw [onClientDisconnected, hconn]
    simp [if_pos rfl, deactivateRemoteScreen]

/-- C4 — witness: from the demo state, deactivate at `t = 1000`; a
`MouseMove` at the right edge 400 ms later does nothing, and the same
move 600 ms later broadcasts `activate_client` for `"C"` at `(1, 400)`
(the spec's boundary scenarios: 300 ms → suppressed, 600 ms →
transitions). -/
theorem deactivation_cooldown_witness :
    (onMouseMove (deactivateRemoteScreen demoState 1000 400).1 1400 1919 400 2 0 =
      ((deactivateRemoteScreen demoState 1000 400).1, [])) ∧
    ((checkScreenTransition (deactivateRemoteScreen demoState 1000 400).1 1600 1919 400).1
        = true) ∧
    (Action.broadcast (OutMsg.activateClient "C" 1 400 1600)
      ∈ (checkScreenTransition (deactivateRemoteScreen demoState 1000 400).1 1600 1919 400).2.2) := by
  have h1 := (deactivation_cooldown demoState 1000 1400 400 1919 400 2 0 (by omega)).1
    (by omega)
  have h2 := (deactivation_cooldown demoState 1000 1600 400 1919 400 2 0 (by omega)).2.1
    demoLayout Side.right
    { targetScreen := demoClientScreen, newX := 1, newY := 400 }
    (by omega) (by decide) (by decide) (by decide) (by decide) (by decide) (by decide)
  exact ⟨h1.1, h2.1, h2.2⟩

/-! ## Clipboard replication (claims C6, C10) -/

/-- C6 — counterexample.  A `clipboard_sync` from another instance with a
fresh sequence but `format = "image/png"` advances `last_sequence` to the
message's sequence yet leaves `last_text` unchanged and performs no
clipboard write, contradicting the claim that in the non-dropped case
"last_text is set to msg.data, and the data is written back". -/
theorem clipboard_sync_format_counterexample :
    ((handleClipboardSync { demoState with clipboardSequence := 5, lastClipboardText := "old" }
        { sourceInstanceId := "C", format := "image/png", data := "NEW", sequence := 6 }).1.clipboardSequence = 6)
    ∧ ((handleClipboardSync { demoState with clipboardSequence := 5, lastClipboardText := "old" }
        { sourceInstanceId := "C", format := "image/png", data := "NEW", sequence := 6 }).1.lastClipboardText = "old")
    ∧ ((handleClipboardSync { demoState with clipboardSequence := 5, lastClipboardText := "old" }
        { sourceInstanceId := "C", format := "image/png", data := "NEW", sequence := 6 }).2 = []) := by
  refine ⟨?_, ?_, ?_⟩ <;> decide

/-- C6 — amended.  For every incoming `clipboard_sync`: a message from the
recipient itself is dropped; a message with `sequence ≤ last_sequence` is
dropped; otherwise `last_sequence := msg.sequence` and — only when
`msg.format = "text/plain"` — `last_text := msg.data` and the data is
written back through the platform clipboard (for any other format the
text and platform clipboard are untouched).  `last_sequence` never
decreases. -/
theorem handleClipboardSync_spec (s : KState) (msg : ClipboardSyncMessage) :
    (msg.sourceInstanceId = s.instanceId → handleClipboardSync s msg = (s, []))
    ∧ (msg.sourceInstanceId ≠ s.instanceId → msg.sequence ≤ s.clipboardSequence →
        handleClipboardSync s msg = (s, []))
    ∧ (msg.sourceInstanceId ≠ s.instanceId → s.clipboardSequence < msg.sequence →
        (handleClipboardSync s msg).1.clipboardSequence = msg.sequence
        ∧ (msg.format = "text/plain" →
            (handleClipboardSync s msg).1.lastClipboardText = msg.data ∧
            (handleClipboardSync s msg).2 = [Action.setClipboardText msg.data])
        ∧ (msg.format ≠ "text/plain" →
            (handleClipboardSync s msg).1.lastClipboardText = s.lastClipboardText ∧
            (handleClipboardSync s msg).2 = []))
    ∧ s.clipboardSequence ≤ (handleClipboardSync s msg).1.clipboardSequence := by
  refine ⟨?_, ?_, ?_, ?_⟩
  · intro h
    rw [handleClipboardSync, if_pos h]
  · intro hsrc hseq
    rw [handleClipboardSync, if_neg hsrc, if_pos hseq]
  · intro hsrc hseq
    rw [handleClipboardSync, if_neg hsrc, if_neg (by omega)]
    by_cases hfmt : msg.format = "text/plain"
    · rw [if_pos hfmt]
      exact ⟨rfl, fun _ => ⟨rfl, rfl⟩, fun h => absurd hfmt h⟩
    · rw [if_neg hfmt]
      exact ⟨rfl, fun h => absurd h hfmt, fun _ => ⟨rfl, rfl⟩⟩
  · rw [handleClipboardSync]
    split_ifs with h1 h2 h3 <;> simp <;> omega

/-- C6 — witness: applying the amended theorem at a fresh `text/plain`
message with sequence 7 on a recipient at sequence 5. -/
theorem handleClipboardSync_spec_witness :
    ((handleClipboardSync { demoState with clipboardSequence := 5 }
        { sourceInstanceId := "C", format := "text/plain", data := "hello", sequence := 7 }).1.clipboardSequence = 7)
    ∧ ((handleClipboardSync { demoState with clipboardSequence := 5 }
        { sourceInstanceId := "C", format := "text/plain", data := "hello", sequence := 7 }).1.lastClipboardText = "hello")
    ∧ ((handleClipboardSync { demoState with clipboardSequence := 5 }
        { sourceInstanceId := "C", format := "text/plain", data := "hello", sequence := 7 }).2 =
        [Action.setClipboardText "hello"]) := by
  have h := (handleClipboardSync_spec { demoState with clipboardSequence := 5 }
    { sourceInstanceId := "C", format := "text/plain", data := "hello", sequence := 7 }).2.2.1
    (by decide) (by decide)
  exact ⟨h.1, (h.2.1 rfl).1, (h.2.1 rfl).2⟩

/-- C10.  A non-`text/plain` `clipboard_sync` with a fresh sequence
advances `last_sequence` while leaving `last_text` and the platform
clipboard untouched; a later `text/plain` update whose sequence does not
exceed that value is then silently dropped (state unchanged, no clipboard
write).  The counter these messages race against is the very one
`broadcastClipboard` increments for outgoing updates (last conjunct). -/
theorem clipboard_nontext_advances_sequence (s : KState)
    (m1 m2 : ClipboardSyncMessage) (text : String)
    (h1src : m1.sourceInstanceId ≠ s.instanceId)
    (h1seq : s.clipboardSequence < m1.sequence)
    (h1fmt : m1.format ≠ "text/plain")
    (h2fmt : m2.format = "text/plain")
    (h2seq : m2.sequence ≤ m1.sequence) :
    ((handleClipboardSync s m1).1.clipboardSequence = m1.sequence)
    ∧ ((handleClipboardSync s m1).1.lastClipboardText = s.lastClipboardText)
    ∧ ((handleClipboardSync s m1).2 = [])
    ∧ (handleClipboardSync (handleClipboardSync s m1).1 m2 =
        ((handleClipboardSync s m1).1, []))
    ∧ ((broadcastClipboard s text).1.clipboardSequence =
        (s.clipboardSequence + 1) % 2 ^ 32) := by
  have hm1 : handleClipboardSync s m1 =
      ({ s with clipboardSequence := m1.sequence }, []) := by
    rw [handleClipboardSync, if_neg h1src, if_neg (by omega), if_neg h1fmt]
  refine ⟨by rw [hm1], by rw [hm1], by rw [hm1], ?_, rfl⟩
  rw [hm1]
  by_cases h2src : m2.sourceInstanceId =
      ({ s with clipboardSequence := m1.sequence } : KState).instanceId
  · rw [handleClipboardSync, if_pos h2src]
  · rw [handleClipboardSync, if_neg h2src, if_pos (by simpa using h2seq)]

/-- C10 — witness: sequence 6 arrives as `image/png`, then `"hello"` as
`text/plain` with sequence 6 is dropped; outgoing broadcasts bump the same
counter. -/
theorem clipboard_nontext_advances_sequence_witness :
    ((handleClipboardSync { demoState with clipboardSequence := 5 }
        { sourceInstanceId := "C", format := "image/png", data := "img", sequence := 6 }).1.clipboardSequence = 6)
    ∧ (handleClipboardSync
        (handleClipboardSync { demoState with clipboardSequence := 5 }
          { sourceInstanceId := "C", format := "image/png", data := "img", sequence := 6 }).1
        { sourceInstanceId := "D", format := "text/plain", data := "hello", sequence := 6 } =
        ((handleClipboardSync { demoState with clipboardSequence := 5 }
          { sourceInstanceId := "C", format := "image/png", data := "img", sequence := 6 }).1, []))
    ∧ ((broadcastClipboard { demoState with clipboardSequence := 5 } "x").1.clipboardSequence
        = 6) := by
  have h := clipboard_nontext_advances_sequence { demoState with clipboardSequence := 5 }
    { sourceInstanceId := "C", format := "image/png", data := "img", sequence := 6 }
    { sourceInstanceId := "D", format := "text/plain", data := "hello", sequence := 6 }
    "x" (by decide) (by decide) (by decide) (by decide) (by decide)
  refine ⟨h.1, h.2.2.2.1, ?_⟩
  rw [h.2.2.2.2]
  decide

/-! ## Session management (claims C1, C9) -/

/-- C1 — counterexample.  `demoState` has an empty
`connectionToInstanceId` map: no connection has ever handshaken.  A
`client_registration` for `"X"` is nevertheless fully processed: the
`ConnectedClient` entry is stored and the screen is registered with the
layout manager, contradicting the claim that such a message is ignored
with no layout registration and no peer entry. -/
theorem registration_without_handshake_counterexample :
    demoState.connectionToInstanceId = [] ∧
    alistFind (handleClientRegistration demoState 100 demoRegMsg).1.connectedClients "X" =
      some { instanceId := "X", displayName := "xdisp", screenWidth := 800,
             screenHeight := 600, connectedAt := 100, active := false } ∧
    (findScreen (handleClientRegistration demoState 100 demoRegMsg).1.layoutOrEmpty "X").isSome
      = true := by
  refine ⟨rfl, ?_, ?_⟩ <;> decide

/-- C1 — amended.  A server with a layout manager processes every
`client_registration`, storing the peer entry and registering the screen,
without consulting the handshake state at all: the connection→instance
map is read nowhere and left unchanged.  (Only a non-server role or a
missing layout manager makes the handler a no-op.) -/
theorem handleClientRegistration_no_handshake_gate (s : KState) (now : Nat)
    (msg : ClientRegistrationMessage) (l : Layout)
    (hrole : s.role = InstanceRole.server) (hlm : s.layoutManager = some l) :
    (handleClientRegistration s now msg).1.connectedClients =
      alistInsert s.connectedClients msg.instanceId
        { instanceId := msg.instanceId, displayName := msg.displayName,
          screenWidth := msg.screenWidth, screenHeight := msg.screenHeight,
          connectedAt := now, active := false } ∧
    (handleClientRegistration s now msg).1.layoutManager =
      some (registerClient l msg.instanceId msg.displayName msg.machineId
        msg.screenWidth msg.screenHeight).2 ∧
    (handleClientRegistration s now msg).1.connectionToInstanceId =
      s.connectionToInstanceId := by
  rw [handleClientRegistration, if_neg (by simp [hrole, hlm])]
  refine ⟨rfl, ?_, rfl⟩
  simp [KState.layoutOrEmpty, hlm]

/-- C1 — witness: the amended theorem applied at the demo server state
and the demo registration message. -/
theorem handleClientRegistration_no_handshake_gate_witness :
    (handleClientRegistration demoState 100 demoRegMsg).1.connectedClients =
      alistInsert demoState.connectedClients "X"
        { instanceId := "X", displayName := "xdisp", screenWidth := 800,
          screenHeight := 600, connectedAt := 100, active := false } ∧
    (handleClientRegistration demoState 100 demoRegMsg).1.layoutManager =
      some (registerClient demoLayout "X" "xdisp" "xm" 800 600).2 := by
  have h := handleClientRegistration_no_handshake_gate demoState 100 demoRegMsg
    demoLayout rfl rfl
  exact ⟨h.1, h.2.1⟩

/-- C9 — counterexample.  After connection 2 handshakes with the instance
id `"A"` already bound to connection 1, *both* connections remain bound to
`"A"` (the old one is not closed), and a later disconnect of the old
connection 1 erases the peer entry for `"A"` — destroying the state the
new connection relies on.  Both halves of the claim fail. -/
theorem duplicate_handshake_counterexample :
    (c9AfterSecondHandshake.connectionToInstanceId.filter
        (fun p => p.2 = "A")).length = 2 ∧
    (alistFind c9AfterSecondHandshake.connectedClients "A").isSome = true ∧
    alistFind (onClientDisconnected c9AfterSecondHandshake 1 20 0).1.connectedClients "A"
      = none := by
  refine ⟨?_, ?_, ?_⟩ <;> decide

/-- C9 — amended.  A handshake from a new connection carrying an instance
id already bound to another connection merely adds the binding: the
server answers with an accepting `handshake_response` and closes nothing,
so both connections stay bound to the id, and a later disconnect of the
*old* connection removes the `ConnectedClient` entry for that id (and so
discards the state belonging to the new connection). -/
theorem handshake_duplicate_id_behaviour (s : KState) (conn1 conn2 : Nat)
    (req : HandshakeRequest) (now : Nat) (platY : Int)
    (h1 : alistFind s.connectionToInstanceId conn1 = some req.instanceId)
    (hne : conn1 ≠ conn2) :
    alistFind (handleHandshakeRequest s conn2 req).1.connectionToInstanceId conn1 =
      some req.instanceId ∧
    alistFind (handleHandshakeRequest s conn2 req).1.connectionToInstanceId conn2 =
      some req.instanceId ∧
    (handleHandshakeRequest s conn2 req).2 =
      [Action.sendTo conn2 (OutMsg.handshakeResponse true s.instanceId s.instanceName)] ∧
    alistFind (onClientDisconnected (handleHandshakeRequest s conn2 req).1
        conn1 now platY).1.connectedClients req.instanceId = none := by
  have hc1 : alistFind (handleHandshakeRequest s conn2 req).1.connectionToInstanceId conn1 =
      some req.instanceId := by
    rw [handleHandshakeRequest]
    rw [alistFind_insert_ne _ _ _ _ hne]
    exact h1
  refine ⟨hc1, ?_, rfl, ?_⟩
  · rw [handleHandshakeRequest]
    exact alistFind_insert_self _ _ _
  · rw [onClientDisconnected, hc1]
    exact alistFind_erase_self _ _

/-- C9 — witness: the amended theorem applied to the concrete two-
connection scenario. -/
theorem handshake_duplicate_id_behaviour_witness :
    alistFind c9AfterSecondHandshake.connectionToInstanceId 1 = some "A" ∧
    alistFind c9AfterSecondHandshake.connectionToInstanceId 2 = some "A" ∧
    alistFind (onClientDisconnected c9AfterSecondHandshake 1 20 0).1.connectedClients "A"
      = none := by
  have h := handshake_duplicate_id_behaviour
    (handleClientRegistration
      (handleHandshakeRequest demoState 1 { instanceId := "A", instanceName := "a" }).1
      10
      { instanceId := "A", displayName := "adisp", machineId := "am",
        screenWidth := 800, screenHeight := 600 }).1
    1 2 { instanceId := "A", instanceName := "a" } 20 0 (by decide) (by decide)
  exact ⟨h.1, h.2.1, h.2.2.2⟩

/-! ## Reconnection policy (claim C7) -/

/-- C7 — counterexample.  The spec schedules the next attempt `2500 ms`
after a graceful `server_shutdown{delayMs = 2000}` disconnect, but
`onDisconnect` zeroes `mLastReconnectAttempt` ("Allow immediate first
attempt"), so with the disconnect at wall-clock `1000000` the very next
main-loop tick at `1000010` — 10 ms later, far less than 2500 ms —
already fires a reconnect attempt. -/
theorem reconnect_immediate_first_attempt_counterexample :
    c7AfterDisconnect.expectingReconnect = true ∧
    c7AfterDisconnect.expectedRestartDelayMs = 2000 ∧
    reconnectDelay c7AfterDisconnect = 2500 ∧
    (1000010 - 1000000 < 2500) ∧
    (reconnectTick c7AfterDisconnect 1000010).1 = true := by
  refine ⟨?_, ?_, ?_, ?_, ?_⟩ <;> decide

/-- C7 — amended.  The *inter-attempt* delay is as claimed — `1000 ms`
after a graceful shutdown with no (or non-positive) delay,
`delay_ms + 500` with a positive delay (2500 for 2000), `3000 ms`
otherwise — and governs a retry only relative to the previous attempt's
timestamp: no retry before it elapses, a retry once it has.  But the
disconnect callback zeroes `mLastReconnectAttempt`, so the first attempt
after a disconnect fires on the next tick regardless of the computed
delay.  At most `MAX_RECONNECT_ATTEMPTS = 10` attempts are made (the
guard stops at 10, which is preserved by every tick), and a successful
connect resets the counter to 0. -/
theorem reconnect_policy (s : KState) (now : Nat)
    (hrole : s.role = InstanceRole.client)
    (hstatus : s.connectionStatus = ConnectionStatus.disconnected)
    (hhost : s.wsHostNonempty = true) :
    (s.expectingReconnect = true → 0 < s.expectedRestartDelayMs →
      reconnectDelay s = s.expectedRestartDelayMs.toNat + 500) ∧
    (s.expectingReconnect = true → s.expectedRestartDelayMs ≤ 0 →
      reconnectDelay s = 1000) ∧
    (s.expectingReconnect = false → reconnectDelay s = 3000) ∧
    (s.reconnectAttempts < MAX_RECONNECT_ATTEMPTS →
      now - s.lastReconnectAttempt < reconnectDelay s →
      reconnectTick s now = (false, s)) ∧
    (s.reconnectAttempts < MAX_RECONNECT_ATTEMPTS →
      reconnectDelay s ≤ now - s.lastReconnectAttempt →
      (reconnectTick s now).1 = true ∧
      (reconnectTick s now).2.reconnectAttempts = s.reconnectAttempts + 1 ∧
      (reconnectTick s now).2.lastReconnectAttempt = now) ∧
    (MAX_RECONNECT_ATTEMPTS ≤ s.reconnectAttempts → reconnectTick s now = (false, s)) ∧
    (s.reconnectAttempts ≤ MAX_RECONNECT_ATTEMPTS →
      (reconnectTick s now).2.reconnectAttempts ≤ MAX_RECONNECT_ATTEMPTS) ∧
    ((clientOnDisconnect s).lastReconnectAttempt = 0) ∧
    ((clientOnConnect s).reconnectAttempts = 0) := by
  refine ⟨?_, ?_, ?_, ?_, ?_, ?_, ?_, rfl, rfl⟩
  · intro he hd
    rw [reconnectDelay, if_pos he, if_pos (by omega)]
  · intro he hd
    rw [reconnectDelay, if_pos he, if_neg (by omega)]
  · intro he
    rw [reconnectDelay, if_neg (by simp [he])]
    rfl
  · intro hatt hdelay
    rw [reconnectTick, if_pos ⟨hrole, hstatus, hhost, hatt⟩, if_neg (by omega)]
  · intro hatt hdelay
    rw [reconnectTick, if_pos ⟨hrole, hstatus, hhost, hatt⟩, if_pos hdelay]
    exact ⟨rfl, rfl, rfl⟩
  · intro hatt
    rw [reconnectTick, if_neg]
    intro hcond
    omega
  · intro hatt
    rw [reconnectTick]
    split
    · split
      · simpa using by omega
      · simpa using hatt
    · simpa using hatt

/-- C7 — witness: after the graceful-shutdown disconnect the computed
delay is 2500 ms; a tick 2499 ms after the (first, immediate) attempt at
`1000010` does not retry, one 2501 ms after it does; the counter stops at
10; a successful connect resets it. -/
theorem reconnect_policy_witness :
    reconnectDelay c7AfterDisconnect = 2500 ∧
    reconnectTick c7AfterFirstAttempt 1002509 = (false, c7AfterFirstAttempt) ∧
    (reconnectTick c7AfterFirstAttempt 1002511).1 = true ∧
    reconnectTick c7Exhausted 2000000 = (false, c7Exhausted) ∧
    (clientOnConnect c7MidAttempts).reconnectAttempts = 0 := by
  have h1 := reconnect_policy c7AfterDisconnect 1000010 (by decide) (by decide) (by decide)
  have h2 := reconnect_policy c7AfterFirstAttempt 1002509 (by decide) (by decide) (by decide)
  have h3 := reconnect_policy c7AfterFirstAttempt 1002511 (by decide) (by decide) (by decide)
  have h4 := reconnect_policy c7Exhausted 2000000 (by decide) (by decide) (by decide)
  have h5 := reconnect_policy c7MidAttempts 3000000 (by decide) (by decide) (by decide)
  refine ⟨h1.1 (by decide) (by decide), ?_, ?_, ?_, h5.2.2.2.2.2.2.2.2⟩
  · exact h2.2.2.2.1 (by decide) (by decide)
  · exact (h3.2.2.2.2.1 (by decide) (by decide)).1
  · exact h4.2.2.2.2.2.1 (by decide)

end Konflikt
